import Mathlib

/-!
Verification of the request-baskets capture engine against its
natural-language specification.  Pure fragments of the source are embedded
as Lean functions; components whose implementation is not part of the
source tree are modelled from the specification text (their doc comments
say so explicitly).
-/

namespace RequestBaskets

/-! ### Themes (src/themes.go) -/

def ThemeStandard : String := "standard"

def themeStandardCSS : String :=
  "\n  <link rel=\"stylesheet\" href=\"/static/css/bootstrap-3.3.7.min.css\">\n  <link rel=\"stylesheet\" href=\"/static/css/bootstrap-theme-3.3.7.min.css\">"

def ThemeAdaptive : String := "adaptive"

def themeAdaptiveCSS : String :=
  "\n  <link rel=\"stylesheet\" href=\"/static/css/bootstrap-dark-1.0.0.min.css\">"

def ThemeFlatly : String := "flatly"

def themeFlatlyCSS : String :=
  "\n  <link rel=\"stylesheet\" href=\"/static/css/bootswatch-flatly-3.3.7.min.css\">"

/-- Embedding of `toThemeCSS` from src/themes.go: the Go `switch` returns the
adaptive and flatly CSS for their theme names, and falls through from the
`standard` case into `default`, returning the standard CSS for every other
input. -/
def toThemeCSS (theme : String) : String :=
  if theme = ThemeAdaptive then themeAdaptiveCSS
  else if theme = ThemeFlatly then themeFlatlyCSS
  else themeStandardCSS

/-! ### Log sanitizer -/

/-- Modelled from the spec: the log sanitizer replaces ASCII LF with the two
characters `^n` and ASCII CR with `^r`; every other character is kept.  The
implementation of `sanitizeForLog` is not in the source tree (only its test
is); the spec describes it as a character replacer. -/
def sanitizeChar (c : Char) : List Char :=
  if c = '\n' then ['^', 'n']
  else if c = '\r' then ['^', 'r']
  else [c]

/-- Modelled from the spec: `sanitizeForLog` applies `sanitizeChar` to every
character of the input. -/
def sanitizeForLog (value : String) : String :=
  ⟨value.data.flatMap sanitizeChar⟩

theorem bind_sanitizeChar_of_clean (l : List Char)
    (h : ∀ c ∈ l, c ≠ '\n' ∧ c ≠ '\r') : l.flatMap sanitizeChar = l := by
  induction l with
  | nil => rfl
  | cons c cs ih =>
    have hc := h c (List.mem_cons_self c cs)
    have hcs : ∀ x ∈ cs, x ≠ '\n' ∧ x ≠ '\r' := fun x hx => h x (List.mem_cons_of_mem c hx)
    simp only [List.flatMap_cons, ih hcs, sanitizeChar, if_neg hc.1, if_neg hc.2]
    rfl

/-! ### Bounded request store -/

/-- Modelled from the spec: a captured request record holds arrival date,
method, path (after the basket segment), raw query, header multimap, body
and content length. -/
structure RequestRecord where
  date : Nat
  method : String
  path : String
  query : String
  headers : List (String × List String)
  body : String
  contentLength : Nat
deriving DecidableEq, Repr

/-- Modelled from the spec: the bounded request store keeps the captured
records (newest first), the basket capacity and the lifetime counter
`total_requests_seen`. -/
structure RequestStore where
  records : List RequestRecord
  capacity : Nat
  totalSeen : Nat
deriving DecidableEq, Repr

def RequestStore.size (s : RequestStore) : Nat := s.records.length

/-- Modelled from the spec: on insert, if `size == capacity` the oldest
record is dropped before admitting the new one; `total_requests_seen`
always increases by one. -/
def RequestStore.insert (s : RequestStore) (r : RequestRecord) : RequestStore :=
  let kept := if s.records.length = s.capacity then s.records.dropLast else s.records
  { s with records := r :: kept, totalSeen := s.totalSeen + 1 }

/-- Modelled from the spec: `clear()` empties the store; the lifetime
counter is never reset by clear operations. -/
def RequestStore.clear (s : RequestStore) : RequestStore :=
  { s with records := [] }

/-- Modelled from the spec: the `RequestsPage` wire object
`\x7brequests[], count, total_count, has_more\x7d`. -/
structure RequestsPage where
  requests : List RequestRecord
  count : Nat
  totalCount : Nat
  hasMore : Bool
deriving DecidableEq, Repr

/-- Modelled from the spec: a read with parameters `max` and `skip` returns
the records at positions `skip..skip+max-1`, 0-indexed from the newest,
truncated to the available range; `count` is the current size, `total_count`
the lifetime counter, and `has_more` tells whether records remain past the
returned page. -/
def RequestStore.getPage (s : RequestStore) (maxCount skip : Nat) : RequestsPage :=
  { requests := (s.records.drop skip).take maxCount
    count := s.records.length
    totalCount := s.totalSeen
    hasMore := decide (skip + maxCount < s.records.length) }

def emptyStore (cap : Nat) : RequestStore :=
  { records := [], capacity := cap, totalSeen := 0 }

/-- The i-th captured request of the paging scenario: `POST /data?id=i` with
body `reqi data ...`, as sent by the capture tests. -/
def capRecord (i : Nat) : RequestRecord :=
  { date := i
    method := "POST"
    path := "/data"
    query := "id=" ++ toString i
    headers := [("Content-Type", ["text/plain"])]
    body := "req" ++ toString i ++ " data ..."
    contentLength := 14 }

/-- Inserts `capRecord 1`, …, `capRecord n` in order into the store. -/
def insertRange (s : RequestStore) : Nat → RequestStore
  | 0 => s
  | n + 1 => (insertRange s n).insert (capRecord (n + 1))

theorem insertRange_totalSeen (s : RequestStore) (n : Nat) :
    (insertRange s n).totalSeen = s.totalSeen + n := by
  induction n with
  | zero => rfl
  | succ n ih =>
    show (insertRange s n).totalSeen + 1 = s.totalSeen + (n + 1)
    rw [ih, Nat.add_assoc]

/-- The store of the paging scenario: 300 requests captured into a basket of
capacity 200. -/
def cap1Store : RequestStore := insertRange (emptyStore 200) 300

set_option maxRecDepth 4000 in
/-- Claim C1: after capturing 300 requests into a basket of capacity 200, a
page read with `max=5` and `skip=5` returns exactly 5 records, newest first,
whose first body is that of request 295, with `count=200`,
`total_count=300` and `has_more=true`; in general a read with parameters
`max` and `skip` returns the records at positions `skip..skip+max-1`
(0-indexed from the newest), truncated to the available range. -/
theorem getPage_paging_spec :
    ((cap1Store.getPage 5 5).requests.map (fun r => r.body)
        = ["req295 data ...", "req294 data ...", "req293 data ...",
           "req292 data ...", "req291 data ..."] ∧
      (cap1Store.getPage 5 5).count = 200 ∧
      (cap1Store.getPage 5 5).totalCount = 300 ∧
      (cap1Store.getPage 5 5).hasMore = true) ∧
    (∀ (s : RequestStore) (m k : Nat),
      ((s.getPage m k).requests.length = min m (s.size - k)) ∧
      ∀ (i : Nat) (h : i < (s.getPage m k).requests.length),
        ∃ h2 : k + i < s.records.length,
          (s.getPage m k).requests.get ⟨i, h⟩ = s.records.get ⟨k + i, h2⟩) := by
  constructor
  · exact ⟨by decide, by decide, by decide, by decide⟩
  · intro s m k
    constructor
    · show ((s.records.drop k).take m).length = min m (s.records.length - k)
      rw [List.length_take, List.length_drop]
    · intro i h
      have hlen : i < ((s.records.drop k).take m).length := h
      have hdrop : i < (s.records.drop k).length := by
        rw [List.length_take] at hlen
        omega
      have h2 : k + i < s.records.length := by
        rw [List.length_drop] at hdrop
        omega
      refine ⟨h2, ?_⟩
      show ((s.records.drop k).take m).get ⟨i, hlen⟩ = s.records.get ⟨k + i, h2⟩
      simp [List.get_eq_getElem, List.getElem_take, List.getElem_drop]

/-- Witness for C1: the general paging clause applied to a small concrete
store. -/
theorem getPage_paging_spec_witness :
    (((insertRange (emptyStore 3) 2).getPage 2 0).requests.length
        = min 2 ((insertRange (emptyStore 3) 2).size - 0)) ∧
    ∃ h2 : 0 + 0 < (insertRange (emptyStore 3) 2).records.length,
      ((insertRange (emptyStore 3) 2).getPage 2 0).requests.get ⟨0, by decide⟩
        = (insertRange (emptyStore 3) 2).records.get ⟨0 + 0, h2⟩ :=
  ⟨(getPage_paging_spec.2 (insertRange (emptyStore 3) 2) 2 0).1,
   (getPage_paging_spec.2 (insertRange (emptyStore 3) 2) 2 0).2 0 (by decide)⟩

/-- Claim C4: clearing a basket empties the store (size 0, empty page,
`has_more=false`) but leaves the lifetime counter `total_requests_seen`
unchanged: after capturing k requests and clearing, `total_count` is
still k. -/
theorem clearBasket_spec :
    (∀ (s : RequestStore) (m k : Nat),
      (s.clear).size = 0 ∧
      (s.clear).totalSeen = s.totalSeen ∧
      ((s.clear).getPage m k).requests = [] ∧
      ((s.clear).getPage m k).hasMore = false) ∧
    (∀ (c n : Nat), ((insertRange (emptyStore c) n).clear).totalSeen = n) ∧
    (((insertRange (emptyStore 200) 25).clear).getPage 20 0
        = { requests := [], count := 0, totalCount := 25, hasMore := false }) := by
  refine ⟨fun s m k => ⟨rfl, rfl, ?_, ?_⟩, fun c n => ?_, by decide⟩
  · show (([] : List RequestRecord).drop k).take m = []
    simp
  · show decide (k + m < ([] : List RequestRecord).length) = false
    simp
  · show (insertRange (emptyStore c) n).totalSeen = n
    rw [insertRange_totalSeen]
    exact Nat.zero_add n

/-- Witness for C4: the general clauses applied to a concrete store. -/
theorem clearBasket_spec_witness :
    ((insertRange (emptyStore 3) 2).clear).size = 0 ∧
    ((insertRange (emptyStore 5) 4).clear).totalSeen = 4 :=
  ⟨(clearBasket_spec.1 (insertRange (emptyStore 3) 2) 1 0).1,
   clearBasket_spec.2.1 5 4⟩

/-! ### Forwarder -/

/-- Modelled from the spec: a parsed forward URL, split into its base
(scheme and authority), path, and own query parameters in order. -/
structure ForwardURL where
  base : String
  path : String
  params : List (String × String)
deriving DecidableEq, Repr

/-- Modelled from the spec: merged query parameters keep the forward URL's
own parameters first, then the incoming request's parameters; duplicate
keys are kept as multiple values. -/
def mergeParams (fwd incoming : List (String × String)) : List (String × String) :=
  fwd ++ incoming

/-- Modelled from the spec: when `expand_path` is true the captured record's
subpath is appended to the forward URL's path. -/
def expandedPath (expand : Bool) (fwdPath subpath : String) : String :=
  if expand then fwdPath ++ subpath else fwdPath

def encodeParam (p : String × String) : String := p.1 ++ "=" ++ p.2

/-- Renders a parameter list as a raw query string, `name=value` pairs
joined by `&`. -/
def encodeQuery : List (String × String) → String
  | [] => ""
  | [p] => encodeParam p
  | p :: q :: ps => encodeParam p ++ "&" ++ encodeQuery (q :: ps)

/-- Modelled from the spec: the upstream target of a forwarded request —
its path (subpath appended when `expand_path`) and its raw query (the
forward URL's parameters first, then the incoming parameters). -/
def forwardTarget (expand : Bool) (fwd : ForwardURL) (subpath : String)
    (incoming : List (String × String)) : String × String :=
  (expandedPath expand fwd.path subpath, encodeQuery (mergeParams fwd.params incoming))

theorem encodeQuery_append (ps qs : List (String × String))
    (hp : ps ≠ []) (hq : qs ≠ []) :
    encodeQuery (ps ++ qs) = encodeQuery ps ++ "&" ++ encodeQuery qs := by
  induction ps with
  | nil => exact absurd rfl hp
  | cons p ps ih =>
    cases ps with
    | nil =>
      cases qs with
      | nil => exact absurd rfl hq
      | cons q qs => rfl
    | cons p2 ps2 =>
      have step : encodeQuery ((p :: p2 :: ps2) ++ qs)
          = encodeParam p ++ "&" ++ encodeQuery ((p2 :: ps2) ++ qs) := rfl
      rw [step, ih (by simp)]
      show encodeParam p ++ "&" ++ (encodeQuery (p2 :: ps2) ++ "&" ++ encodeQuery qs)
          = encodeParam p ++ "&" ++ encodeQuery (p2 :: ps2) ++ "&" ++ encodeQuery qs
      simp [String.append_assoc]

/-- Claim C2: with `expand_path` true the upstream path is the forward URL's
path extended with the captured subpath; the outbound query keeps the
forward URL's own parameters first, then the incoming ones, duplicates kept
as multiple values.  The scenario of the tests — forward URL
`<ts>/service?from=<basket>` and incoming
`DELETE /<basket>/articles/123?sig=abcdge3276542` — yields upstream path
`/service/articles/123` and query `from=<basket>&sig=abcdge3276542`. -/
theorem forward_url_construction_spec :
    (forwardTarget true
        { base := "http://127.0.0.1:9999", path := "/service",
          params := [("from", "accept06")] }
        "/articles/123" [("sig", "abcdge3276542")]
      = ("/service/articles/123", "from=accept06&sig=abcdge3276542")) ∧
    (∀ (fwd : ForwardURL) (subpath : String) (incoming : List (String × String)),
      (forwardTarget true fwd subpath incoming).1 = fwd.path ++ subpath ∧
      (forwardTarget false fwd subpath incoming).1 = fwd.path) ∧
    (∀ (ps qs : List (String × String)),
      (∀ key : String, (mergeParams ps qs).countP (fun p => p.1 = key)
          = ps.countP (fun p => p.1 = key) + qs.countP (fun p => p.1 = key)) ∧
      (∀ (i : Nat) (h : i < ps.length),
        ∃ h2 : i < (mergeParams ps qs).length,
          (mergeParams ps qs).get ⟨i, h2⟩ = ps.get ⟨i, h⟩) ∧
      (ps ≠ [] → qs ≠ [] →
        encodeQuery (mergeParams ps qs) = encodeQuery ps ++ "&" ++ encodeQuery qs)) := by
  refine ⟨by decide, fun fwd subpath incoming => ⟨rfl, rfl⟩, fun ps qs => ⟨?_, ?_, ?_⟩⟩
  · intro key
    exact List.countP_append _ _ _
  · intro i h
    have h2 : i < (ps ++ qs).length := by
      rw [List.length_append]
      omega
    refine ⟨h2, ?_⟩
    show (ps ++ qs).get ⟨i, h2⟩ = ps.get ⟨i, h⟩
    simp only [List.get_eq_getElem]
    exact List.getElem_append_left h
  · exact encodeQuery_append ps qs

/-- Witness for C2: the general clauses evaluated on concrete parameter
lists, with a duplicate key kept twice. -/
theorem forward_url_construction_spec_witness :
    (forwardTarget true
        { base := "b", path := "/p", params := [] } "/x" []).1 = "/p" ++ "/x" ∧
    (mergeParams [("a", "1")] [("a", "2")]).countP (fun p => p.1 = "a")
      = ([(("a" : String), ("1" : String))]).countP (fun p => p.1 = "a")
        + ([(("a" : String), ("2" : String))]).countP (fun p => p.1 = "a") ∧
    encodeQuery (mergeParams [("a", "1")] [("a", "2")])
      = encodeQuery [(("a" : String), ("1" : String))] ++ "&"
        ++ encodeQuery [(("a" : String), ("2" : String))] :=
  ⟨(forward_url_construction_spec.2.1 { base := "b", path := "/p", params := [] } "/x" []).1,
   (forward_url_construction_spec.2.2 [("a", "1")] [("a", "2")]).1 "a",
   (forward_url_construction_spec.2.2 [("a", "1")] [("a", "2")]).2.2
     (by decide) (by decide)⟩

/-! ### Forward failure dispatch -/

/-- Outcome of one forwarding attempt: upstream success, a transport error
(e.g. connection refused), or a forward URL that failed to parse. -/
inductive ForwardOutcome where
  | success (status : Nat) (respBody : String)
  | transportError (cause : String)
  | invalidURL (cause : String)
deriving DecidableEq, Repr

structure HTTPResponse where
  status : Nat
  body : String
deriving DecidableEq, Repr

/-- Modelled from the spec: when `proxy_response` is false forwarding runs
detached and failures are never surfaced — the acceptor returns the normal
HTTP 200 empty response; when `proxy_response` is true the upstream response
is copied on success, a transport failure yields HTTP 502 with a body
naming the forward URL and the cause, and an unparseable forward URL yields
HTTP 500. -/
def acceptorForwardResponse (proxyResponse : Bool) (forwardURL : String)
    (outcome : ForwardOutcome) : HTTPResponse :=
  if proxyResponse then
    match outcome with
    | .success st b => { status := st, body := b }
    | .transportError cause =>
        { status := 502,
          body := "Failed to forward request: " ++ forwardURL ++ " - " ++ cause }
    | .invalidURL cause =>
        { status := 500,
          body := "invalid forward URL: " ++ forwardURL ++ "; " ++ cause }
  else { status := 200, body := "" }

/-- Claim C3: with `proxy_response` false a forwarding failure (transport
error or unparseable forward URL) is never surfaced — the acceptor returns
HTTP 200 with empty body; with `proxy_response` true a transport failure
yields HTTP 502 with a body containing the forward URL and the cause
string, and an invalid forward URL yields HTTP 500. -/
theorem forward_failure_dispatch_spec :
    (∀ (url : String) (o : ForwardOutcome),
      acceptorForwardResponse false url o = { status := 200, body := "" }) ∧
    (∀ (url cause : String),
      (acceptorForwardResponse true url (.transportError cause)).status = 502 ∧
      (∃ pre post : String,
        (acceptorForwardResponse true url (.transportError cause)).body
          = pre ++ url ++ post) ∧
      (∃ pre : String,
        (acceptorForwardResponse true url (.transportError cause)).body
          = pre ++ cause)) ∧
    (∀ (url cause : String),
      (acceptorForwardResponse true url (.invalidURL cause)).status = 500) := by
  refine ⟨fun url o => rfl, fun url cause => ⟨rfl, ?_, ?_⟩, fun url cause => rfl⟩
  · refine ⟨"Failed to forward request: ", " - " ++ cause, ?_⟩
    show "Failed to forward request: " ++ url ++ " - " ++ cause
        = "Failed to forward request: " ++ url ++ (" - " ++ cause)
    rw [String.append_assoc]
  · refine ⟨"Failed to forward request: " ++ url ++ " - ", rfl⟩

/-- Witness for C3: the dispatch clauses at the inputs of the gateway
tests. -/
theorem forward_failure_dispatch_spec_witness :
    acceptorForwardResponse false "http://localhost:55556/notify"
        (.transportError "connection refused") = { status := 200, body := "" } ∧
    (acceptorForwardResponse true "http://localhost:55556/notify"
        (.transportError "connection refused")).status = 502 ∧
    (acceptorForwardResponse true "qwert"
        (.invalidURL "invalid URI for request")).status = 500 :=
  ⟨forward_failure_dispatch_spec.1 "http://localhost:55556/notify"
      (.transportError "connection refused"),
   (forward_failure_dispatch_spec.2.1 "http://localhost:55556/notify"
      "connection refused").1,
   forward_failure_dispatch_spec.2.2 "qwert" "invalid URI for request"⟩

/-! ### Response machine -/

/-- The recognized HTTP methods of a per-basket response configuration. -/
def httpMethods : List String :=
  ["GET", "POST", "PUT", "DELETE", "PATCH", "HEAD", "OPTIONS"]

/-- Uppercases a string character by character. -/
def upperString (s : String) : String := ⟨s.data.map Char.toUpper⟩

/-- Modelled from the spec: a per-method response configuration with status,
body, header multimap and the template flag. -/
structure ResponseConfig where
  status : Int
  body : String
  headers : List (String × List String)
  isTemplate : Bool
deriving DecidableEq, Repr

/-- Names usable as the leading word of a Go text/template action without a
leading dot or dollar (control keywords and built-in functions). -/
def templateKeywords : List String :=
  ["range", "end", "if", "else", "with", "define", "block", "template",
   "index", "print", "printf", "println", "len", "not", "and", "or",
   "urlquery", "html", "js", "eq", "ne", "lt", "le", "gt", "ge"]

/-- Splits a character list into space-separated words. -/
def wordsAux : List Char → List Char → List (List Char)
  | acc, [] => if acc.isEmpty then [] else [acc.reverse]
  | acc, ' ' :: rest =>
      if acc.isEmpty then wordsAux [] rest else acc.reverse :: wordsAux [] rest
  | acc, c :: rest => wordsAux (c :: acc) rest

/-- Modelled from the spec: syntax check of a single template action — its
leading word must be a field access (leading dot), a variable (leading
dollar), or a recognized keyword or built-in function; a bare unknown
identifier fails to compile (function not defined). -/
def actionOk (action : List Char) : Bool :=
  match wordsAux [] action with
  | [] => true
  | w :: _ =>
    match w with
    | [] => true
    | c :: _ => c = '.' || c = '$' || templateKeywords.contains (String.mk w)

/-- Modelled from the spec: extracts the actions (the parts delimited by
double braces) of a template source; `none` when an action is left
unterminated. -/
def templateScan : Bool → List Char → List Char → Option (List (List Char))
  | true, _, [] => none
  | false, _, [] => some []
  | false, _, '\x7b' :: '\x7b' :: rest => templateScan true [] rest
  | false, acc, _ :: rest => templateScan false acc rest
  | true, acc, '\x7d' :: '\x7d' :: rest =>
      (templateScan false [] rest).map (fun as => acc.reverse :: as)
  | true, acc, c :: rest => templateScan true (c :: acc) rest

/-- Modelled from the spec: a body compiles as a template exactly when its
action list is well delimited and every action passes the syntax check. -/
def templateCompiles (s : String) : Bool :=
  match templateScan false [] s.data with
  | none => false
  | some actions => actions.all actionOk

/-- Modelled from the spec: `set(method, config)` validates the method
(case-insensitive, 400 on an unknown one), the status (422 outside
`[100, 599]`) and, when `is_template` is set, that the body and every
header value compile as templates (422 otherwise); a failed validation
leaves the stored responses unchanged, a successful one upserts the
configuration under the uppercased method. -/
def updateResponse (rs : List (String × ResponseConfig)) (method : String)
    (cfg : ResponseConfig) : Nat × String × List (String × ResponseConfig) :=
  if ¬ (httpMethods.contains (upperString method) = true) then
    (400, "unknown HTTP method: " ++ method, rs)
  else if cfg.status < 100 ∨ 599 < cfg.status then
    (422, "invalid HTTP status of response: " ++ toString cfg.status, rs)
  else if cfg.isTemplate = true ∧
      ¬ (templateCompiles cfg.body = true ∧
         cfg.headers.all (fun h => h.2.all templateCompiles) = true) then
    (422, "error in body template", rs)
  else
    (204, "", (upperString method, cfg) :: rs.filter (fun p => p.1 ≠ upperString method))

/-- Claim C5: upserting a response configuration validates before storing
and is atomic on failure: an unknown method is rejected with 400 and an
`unknown HTTP method` message, a status outside `[100, 599]` with 422 and
`invalid HTTP status of response`, and a non-compiling template body with
422; in every rejection the stored configurations are unchanged. -/
theorem updateResponse_validation_spec :
    (∀ (rs : List (String × ResponseConfig)) (cfg : ResponseConfig),
      updateResponse rs "WRONG" cfg = (400, "unknown HTTP method: WRONG", rs)) ∧
    (∀ (rs : List (String × ResponseConfig)) (cfg : ResponseConfig),
      (cfg.status < 100 ∨ 599 < cfg.status) →
      updateResponse rs "OPTIONS" cfg
        = (422, "invalid HTTP status of response: " ++ toString cfg.status, rs)) ∧
    (∀ rs : List (String × ResponseConfig),
      updateResponse rs "GET"
          { status := 200, body := "data: \x7b\x7bdata\x7d\x7d",
            headers := [], isTemplate := true }
        = (422, "error in body template", rs)) ∧
    (∀ (rs : List (String × ResponseConfig)) (method : String) (cfg : ResponseConfig),
      (updateResponse rs method cfg).1 ≠ 204 →
      (updateResponse rs method cfg).2.2 = rs) := by
  refine ⟨fun rs cfg => rfl, ?_, fun rs => rfl, ?_⟩
  · intro rs cfg h
    unfold updateResponse
    rw [if_neg (by decide), if_pos h]
  · intro rs method cfg h
    unfold updateResponse at h ⊢
    by_cases h1 : ¬ (httpMethods.contains (upperString method) = true)
    · rw [if_pos h1]
    · rw [if_neg h1] at h ⊢
      by_cases h2 : cfg.status < 100 ∨ 599 < cfg.status
      · rw [if_pos h2]
      · rw [if_neg h2] at h ⊢
        by_cases h3 : cfg.isTemplate = true ∧
            ¬ (templateCompiles cfg.body = true ∧
               cfg.headers.all (fun hh => hh.2.all templateCompiles) = true)
        · rw [if_pos h3]
        · rw [if_neg h3] at h
          exact absurd rfl h

/-- Witness for C5: the validation clauses at the inputs of the response
tests, including the frame clause on a failing update. -/
theorem updateResponse_validation_spec_witness :
    updateResponse [] "WRONG"
        { status := 201, body := "\x7b\x7d",
          headers := [("Content-Type", ["application/json"])], isTemplate := false }
      = (400, "unknown HTTP method: WRONG", []) ∧
    updateResponse [] "OPTIONS" { status := 20, body := "", headers := [], isTemplate := false }
      = (422, "invalid HTTP status of response: " ++ toString (20 : Int), []) ∧
    (updateResponse [] "WRONG"
        { status := 201, body := "", headers := [], isTemplate := false }).2.2 = [] :=
  ⟨updateResponse_validation_spec.1 [] _,
   updateResponse_validation_spec.2.1 [] _ (Or.inl (by decide)),
   updateResponse_validation_spec.2.2.2 [] "WRONG" _ (by decide)⟩

/-! ### Basket creation: configuration, validation, authentication -/

/-- Modelled from the spec: the basket configuration
`\x7bcapacity, forward_url, proxy_response, insecure_tls, expand_path\x7d`. -/
structure BasketConfig where
  capacity : Int
  forwardURL : String
  proxyResponse : Bool
  insecureTLS : Bool
  expandPath : Bool
deriving DecidableEq, Repr

/-- Modelled from the spec: the default basket configuration (capacity 200,
no forwarding). -/
def defaultConfig : BasketConfig :=
  { capacity := 200, forwardURL := "", proxyResponse := false,
    insecureTLS := false, expandPath := false }

/-- Modelled from the spec: the configurable capacity bound MAX_CAPACITY,
at its typical value 2000. -/
def maxCapacity : Int := 2000

/-- A character allowed by the basket name pattern `[\w\d\-_\.]`. -/
def validNameChar (c : Char) : Bool :=
  c.isAlphanum || c = '-' || c = '_' || c = '.'

/-- Modelled from the spec: a basket name matches
`^[\w\d\-_\.]\x7b1,250\x7d$`. -/
def validBasketName (s : String) : Bool :=
  decide (1 ≤ s.data.length) && decide (s.data.length ≤ 250)
    && s.data.all validNameChar

/-- Modelled from the spec: the administrative top-level paths are reserved
basket names. -/
def reservedNames : List String := ["api", "web"]

/-- The service operation mode: public or restricted. -/
inductive Mode where
  | publicMode
  | restricted
deriving DecidableEq, Repr

/-- Modelled from the spec: server state — the mode, the master token and
the registry mapping names to basket configurations. -/
structure ServerState where
  mode : Mode
  masterToken : String
  baskets : List (String × BasketConfig)
deriving DecidableEq, Repr

/-- Modelled from the spec: `POST /api/baskets/:name` — in restricted mode
the master token is required (401 otherwise); the name must match the
pattern (400) and not be reserved (403) or taken (409); the capacity must
be positive (422) and at most MAX_CAPACITY (422); on success the basket is
created and 201 returned.  Every failure leaves the registry unchanged. -/
def createBasket (st : ServerState) (name : String) (authHeader : Option String)
    (cfg : BasketConfig) : Nat × String × ServerState :=
  if st.mode = Mode.restricted ∧ authHeader ≠ some st.masterToken then
    (401, "", st)
  else if ¬ (validBasketName name = true) then
    (400, "invalid basket name; the name does not match pattern", st)
  else if reservedNames.contains name = true then
    (403, "This basket name conflicts with reserved system path: " ++ name, st)
  else if (st.baskets.lookup name).isSome = true then
    (409, "basket already exists", st)
  else if cfg.capacity < 1 then
    (422, "capacity should be a positive number", st)
  else if maxCapacity < cfg.capacity then
    (422, "capacity may not be greater than " ++ toString maxCapacity, st)
  else
    (201, "token", { st with baskets := (name, cfg) :: st.baskets })

/-- A public-mode server state with an empty registry. -/
def st0 : ServerState :=
  { mode := Mode.publicMode, masterToken := "abcdef0123456789", baskets := [] }

/-- A restricted-mode server state with an empty registry. -/
def stR : ServerState :=
  { mode := Mode.restricted, masterToken := "abc123", baskets := [] }

/-- Claim C6: creating a basket with an out-of-range capacity fails with 422
and no basket is created: negative capacity (e.g. -10) yields
`capacity should be a positive number`, capacity greater than MAX_CAPACITY
(e.g. 10000000) yields `capacity may not be greater than …`, and capacity 0
also yields 422; the registry is unchanged in every failure. -/
theorem createBasket_capacity_spec :
    (createBasket st0 "create04" none { defaultConfig with capacity := -10 }
      = (422, "capacity should be a positive number", st0)) ∧
    (createBasket st0 "create05" none { defaultConfig with capacity := 10000000 }
      = (422, "capacity may not be greater than " ++ toString maxCapacity, st0)) ∧
    (createBasket st0 "create00" none { defaultConfig with capacity := 0 }
      = (422, "capacity should be a positive number", st0)) ∧
    (∀ (st : ServerState) (name : String) (auth : Option String) (cfg : BasketConfig),
      (createBasket st name auth cfg).1 ≠ 201 →
      (createBasket st name auth cfg).2.2 = st) ∧
    (∀ (st : ServerState) (name : String) (auth : Option String) (cfg : BasketConfig),
      (cfg.capacity < 1 ∨ maxCapacity < cfg.capacity) →
      (createBasket st name auth cfg).1 ≠ 201) := by
  refine ⟨by decide, by decide, by decide, ?_, ?_⟩
  · intro st name auth cfg h
    unfold createBasket at h ⊢
    by_cases h1 : st.mode = Mode.restricted ∧ auth ≠ some st.masterToken
    · rw [if_pos h1]
    · rw [if_neg h1] at h ⊢
      by_cases h2 : ¬ (validBasketName name = true)
      · rw [if_pos h2]
      · rw [if_neg h2] at h ⊢
        by_cases h3 : reservedNames.contains name = true
        · rw [if_pos h3]
        · rw [if_neg h3] at h ⊢
          by_cases h4 : (st.baskets.lookup name).isSome = true
          · rw [if_pos h4]
          · rw [if_neg h4] at h ⊢
            by_cases h5 : cfg.capacity < 1
            · rw [if_pos h5]
            · rw [if_neg h5] at h ⊢
              by_cases h6 : maxCapacity < cfg.capacity
              · rw [if_pos h6]
              · rw [if_neg h6] at h
                exact absurd rfl h
  · intro st name auth cfg h
    unfold createBasket
    by_cases h1 : st.mode = Mode.restricted ∧ auth ≠ some st.masterToken
    · rw [if_pos h1]; simp
    · rw [if_neg h1]
      by_cases h2 : ¬ (validBasketName name = true)
      · rw [if_pos h2]; simp
      · rw [if_neg h2]
        by_cases h3 : reservedNames.contains name = true
        · rw [if_pos h3]; simp
        · rw [if_neg h3]
          by_cases h4 : (st.baskets.lookup name).isSome = true
          · rw [if_pos h4]; simp
          · rw [if_neg h4]
            by_cases h5 : cfg.capacity < 1
            · rw [if_pos h5]; simp
            · rw [if_neg h5]
              have h6 : maxCapacity < cfg.capacity := by
                rcases h with hlt | hgt
                · exact absurd hlt h5
                · exact hgt
              rw [if_pos h6]; simp

/-- Witness for C6: the frame and rejection clauses at concrete inputs. -/
theorem createBasket_capacity_spec_witness :
    (createBasket st0 "w1" none { defaultConfig with capacity := -10 }).2.2 = st0 ∧
    (createBasket st0 "w1" none { defaultConfig with capacity := 0 }).1 ≠ 201 :=
  ⟨createBasket_capacity_spec.2.2.2.1 st0 "w1" none _ (by decide),
   createBasket_capacity_spec.2.2.2.2 st0 "w1" none _ (Or.inl (by decide))⟩

/-- Claim C7: in restricted mode a create without the master token returns
401 and leaves the registry unchanged, while the same request with the
master token returns 201 and the basket exists afterwards; in public mode
creation needs no token. -/
theorem createBasket_auth_spec :
    (∀ (st : ServerState) (name : String) (cfg : BasketConfig) (auth : Option String),
      st.mode = Mode.restricted → auth ≠ some st.masterToken →
      (createBasket st name auth cfg).1 = 401 ∧
      (createBasket st name auth cfg).2.2 = st) ∧
    (∀ (st : ServerState) (name : String) (cfg : BasketConfig),
      st.mode = Mode.restricted →
      validBasketName name = true →
      reservedNames.contains name = false →
      (st.baskets.lookup name).isSome = false →
      1 ≤ cfg.capacity → cfg.capacity ≤ maxCapacity →
      (createBasket st name (some st.masterToken) cfg).1 = 201 ∧
      ((createBasket st name (some st.masterToken) cfg).2.2).baskets.lookup name
        = some cfg) ∧
    (∀ (st : ServerState) (name : String) (cfg : BasketConfig),
      st.mode = Mode.publicMode →
      validBasketName name = true →
      reservedNames.contains name = false →
      (st.baskets.lookup name).isSome = false →
      1 ≤ cfg.capacity → cfg.capacity ≤ maxCapacity →
      (createBasket st name none cfg).1 = 201 ∧
      ((createBasket st name none cfg).2.2).baskets.lookup name = some cfg) := by
  refine ⟨?_, ?_, ?_⟩
  · intro st name cfg auth hmode hauth
    unfold createBasket
    rw [if_pos ⟨hmode, hauth⟩]
    exact ⟨rfl, rfl⟩
  · intro st name cfg _ hname hres hfree hlo hhi
    unfold createBasket
    rw [if_neg (fun hc => hc.2 rfl), if_neg (fun hc => hc hname),
      if_neg (fun hc => by rw [hres] at hc; exact Bool.noConfusion hc),
      if_neg (fun hc => by rw [hfree] at hc; exact Bool.noConfusion hc),
      if_neg (Int.not_lt.mpr hlo), if_neg (Int.not_lt.mpr hhi)]
    refine ⟨rfl, ?_⟩
    show List.lookup name ((name, cfg) :: st.baskets) = some cfg
    simp [List.lookup]
  · intro st name cfg hmode hname hres hfree hlo hhi
    unfold createBasket
    rw [if_neg (fun hc => by rw [hmode] at hc; exact Mode.noConfusion hc.1),
      if_neg (fun hc => hc hname),
      if_neg (fun hc => by rw [hres] at hc; exact Bool.noConfusion hc),
      if_neg (fun hc => by rw [hfree] at hc; exact Bool.noConfusion hc),
      if_neg (Int.not_lt.mpr hlo), if_neg (Int.not_lt.mpr hhi)]
    refine ⟨rfl, ?_⟩
    show List.lookup name ((name, cfg) :: st.baskets) = some cfg
    simp [List.lookup]

/-- Witness for C7: the three clauses at the restricted and public states of
the authorization tests. -/
theorem createBasket_auth_spec_witness :
    (createBasket stR "create10" none defaultConfig).1 = 401 ∧
    (createBasket stR "create11" (some "abc123") defaultConfig).1 = 201 ∧
    (createBasket st0 "create01" none defaultConfig).1 = 201 :=
  ⟨(createBasket_auth_spec.1 stR "create10" defaultConfig none rfl (by decide)).1,
   (createBasket_auth_spec.2.1 stR "create11" defaultConfig rfl (by decide) (by decide)
      (by decide) (by decide) (by decide)).1,
   (createBasket_auth_spec.2.2 st0 "create01" defaultConfig rfl (by decide) (by decide)
      (by decide) (by decide) (by decide)).1⟩

/-! ### Template data model -/

/-- A value of the template data model: a list of query parameter values, the
whole query sub-namespace, or the parsed JSON body. -/
inductive TValue where
  | strs (vals : List String)
  | qmap (params : List (String × List String))
  | jsonBody (raw : String)
deriving DecidableEq, Repr

/-- Modelled from the spec: the template data built from a captured request —
the parsed body (when present) under `body`, the query parameter map under
`query`, and additionally every query parameter name at top level
(back-compat); a name collision favors the `query` sub-namespace because its
entry precedes the top-level ones and lookup returns the first match. -/
def createTemplateData (jsonBody : Option String)
    (query : List (String × List String)) : List (String × TValue) :=
  (match jsonBody with
   | some b => [("body", TValue.jsonBody b)]
   | none => []) ++
  ("query", TValue.qmap query) :: query.map (fun p => (p.1, TValue.strs p.2))

/-- Looks a parameter name up inside the `query` sub-namespace of template
data. -/
def lookupQueryNS (data : List (String × TValue)) (name : String) :
    Option (List String) :=
  match data.lookup "query" with
  | some (TValue.qmap q) => q.lookup name
  | _ => none

/-- One item of a `range` body: a literal or the current element. -/
inductive RangeItem where
  | lit (text : String)
  | current
deriving DecidableEq, Repr

/-- A node of a template: a literal, a `range` over a top-level name whose
body renders per element, or `index` of a top-level name at a position. -/
inductive TemplateNode where
  | lit (text : String)
  | rangeOver (name : String) (body : List RangeItem)
  | indexAt (name : String) (i : Nat)
deriving DecidableEq, Repr

def renderRangeItem (v : String) : RangeItem → String
  | RangeItem.lit t => t
  | RangeItem.current => v

/-- The string values a template sees under a top-level name. -/
def lookupStrs (data : List (String × TValue)) (name : String) : List String :=
  match data.lookup name with
  | some (TValue.strs vs) => vs
  | _ => []

def renderNode (data : List (String × TValue)) : TemplateNode → String
  | TemplateNode.lit t => t
  | TemplateNode.rangeOver name body =>
      String.join ((lookupStrs data name).map
        (fun v => String.join (body.map (renderRangeItem v))))
  | TemplateNode.indexAt name i => (lookupStrs data name).getD i ""

def renderTemplate (data : List (String × TValue)) (nodes : List TemplateNode) :
    String :=
  String.join (nodes.map (renderNode data))

/-- The template `hello \x7b\x7brange .name\x7d\x7d\x7b\x7b.\x7d\x7d
\x7b\x7bend\x7d\x7d` of the template-response test. -/
def helloTemplate : List TemplateNode :=
  [TemplateNode.lit "hello ",
   TemplateNode.rangeOver "name" [RangeItem.current, RangeItem.lit " "]]

theorem lookup_map_strs (q : List (String × List String)) (n : String)
    (vs : List String) (h : q.lookup n = some vs) :
    (q.map (fun p => (p.1, TValue.strs p.2))).lookup n = some (TValue.strs vs) := by
  induction q with
  | nil => exact absurd h (by simp [List.lookup])
  | cons p ps ih =>
    by_cases he : (n == p.1) = true
    · have h1 : ps.lookup n = some vs → _ := ih
      rw [List.lookup] at h
      rw [he] at h
      simp only [List.map_cons, List.lookup, he]
      exact congrArg (fun x => some (TValue.strs x)) (Option.some.inj h)
    · have he2 : (n == p.1) = false := by
        cases hb : (n == p.1) with
        | false => rfl
        | true => exact absurd hb he
      rw [List.lookup, he2] at h
      simp only [List.map_cons, List.lookup, he2]
      exact ih h

/-- Claim C8: the template data model exposes every query parameter both
under the `query` sub-namespace and at top level with the same values, a
name collision favors the `query` sub-namespace, and the template
`hello \x7b\x7brange .name\x7d\x7d\x7b\x7b.\x7d\x7d \x7b\x7bend\x7d\x7d`
rendered for query `name=Adam&name=Dan` produces `hello Adam Dan `. -/
theorem templateData_spec :
    (∀ (q : List (String × List String)),
      (createTemplateData none q).lookup "query" = some (TValue.qmap q)) ∧
    (∀ (q : List (String × List String)) (n : String) (vs : List String),
      q.lookup n = some vs → n ≠ "query" → n ≠ "body" →
      (createTemplateData none q).lookup n = some (TValue.strs vs) ∧
      lookupQueryNS (createTemplateData none q) n = some vs) ∧
    renderTemplate (createTemplateData none [("name", ["Adam", "Dan"])])
        helloTemplate
      = "hello Adam Dan " := by
  refine ⟨fun q => rfl, ?_, by decide⟩
  intro q n vs h hq _
  have hqb : (n == "query") = false := by
    cases hb : (n == "query") with
    | false => rfl
    | true => exact absurd (eq_of_beq hb) hq
  constructor
  · show List.lookup n (("query", TValue.qmap q)
        :: q.map (fun p => (p.1, TValue.strs p.2))) = some (TValue.strs vs)
    rw [List.lookup, hqb]
    exact lookup_map_strs q n vs h
  · show lookupQueryNS (("query", TValue.qmap q)
        :: q.map (fun p => (p.1, TValue.strs p.2))) n = some vs
    unfold lookupQueryNS
    rw [show List.lookup "query" (("query", TValue.qmap q)
        :: q.map (fun p => (p.1, TValue.strs p.2))) = some (TValue.qmap q) from rfl]
    exact h

/-- Witness for C8: the sub-namespace and top-level clauses for the query
`name=Adam&name=Dan`, whose values agree on both paths. -/
theorem templateData_spec_witness :
    (createTemplateData none [("name", ["Adam", "Dan"])]).lookup "query"
      = some (TValue.qmap [("name", ["Adam", "Dan"])]) ∧
    (createTemplateData none [("name", ["Adam", "Dan"])]).lookup "name"
      = some (TValue.strs ["Adam", "Dan"]) ∧
    lookupQueryNS (createTemplateData none [("name", ["Adam", "Dan"])]) "name"
      = some ["Adam", "Dan"] :=
  ⟨templateData_spec.1 [("name", ["Adam", "Dan"])],
   (templateData_spec.2.1 [("name", ["Adam", "Dan"])] "name" ["Adam", "Dan"]
      (by decide) (by decide) (by decide)).1,
   (templateData_spec.2.1 [("name", ["Adam", "Dan"])] "name" ["Adam", "Dan"]
      (by decide) (by decide) (by decide)).2⟩

/-- Claim C9: `sanitizeForLog` replaces every LF with `^n` and every CR with
`^r`, leaves every other character unchanged, and maps the test vector
`multi-\n\r\n\r\rmulti-\nmulti-\r\nlines` to
`multi-^n^r^n^r^rmulti-^nmulti-^r^nlines`. -/
theorem sanitizeForLog_spec :
    sanitizeForLog "multi-\n\r\n\r\rmulti-\nmulti-\r\nlines"
      = "multi-^n^r^n^r^rmulti-^nmulti-^r^nlines" ∧
    sanitizeForLog "\n" = "^n" ∧
    sanitizeForLog "\r" = "^r" ∧
    (∀ s : String, (∀ c ∈ s.data, c ≠ '\n' ∧ c ≠ '\r') → sanitizeForLog s = s) := by
  refine ⟨by decide, by decide, by decide, fun s h => ?_⟩
  show (⟨s.data.flatMap sanitizeChar⟩ : String) = s
  rw [bind_sanitizeChar_of_clean s.data h]

/-- Witness for C9: the general clean-string clause applied to a concrete
input. -/
theorem sanitizeForLog_spec_witness : sanitizeForLog "basket2346" = "basket2346" :=
  sanitizeForLog_spec.2.2.2 "basket2346" (by decide)

/-- Claim C10: `toThemeCSS` is total and falls back to the standard theme:
every input other than `adaptive` and `flatly` (including `standard`, the
empty string and unknown names) yields the standard CSS block, while
`adaptive` and `flatly` yield their own CSS blocks. -/
theorem toThemeCSS_spec (theme : String)
    (h1 : theme ≠ ThemeAdaptive) (h2 : theme ≠ ThemeFlatly) :
    toThemeCSS theme = themeStandardCSS ∧
    toThemeCSS ThemeAdaptive = themeAdaptiveCSS ∧
    toThemeCSS ThemeFlatly = themeFlatlyCSS := by
  refine ⟨?_, by decide, by decide⟩
  simp only [toThemeCSS, if_neg h1, if_neg h2]

/-- Witness for C10: the fallback clause evaluated at `standard`, the empty
string and an unrecognized name. -/
theorem toThemeCSS_spec_witness :
    toThemeCSS "standard" = themeStandardCSS ∧
    toThemeCSS "" = themeStandardCSS ∧
    toThemeCSS "cerulean" = themeStandardCSS :=
  ⟨(toThemeCSS_spec "standard" (by decide) (by decide)).1,
   (toThemeCSS_spec "" (by decide) (by decide)).1,
   (toThemeCSS_spec "cerulean" (by decide) (by decide)).1⟩

end RequestBaskets
